import Mathlib

/-!
Shallow embedding of `cities/models.py` from the django-cities repository.

The data model (Country, Region, Subregion, City, District, PostalCode,
AlternativeName) is embedded as Lean structures; the `parent` properties,
the `hierarchy` walk, the `full_code` helpers, the `PlaceManager.nearest_to`
spatial query, the `CountryManager.nearest_to` delegation and the
`get_full_index` batch builders are embedded as executable functions.

A database table is a list of rows; a Django queryset restricted by a
geodesic-distance predicate is a `List.filter`; `order_by('distance')` is a
stable insertion sort keyed on the annotated distance; a Python dict
comprehension is a left fold of insert-or-overwrite into an association
list (Python dicts keep insertion order, and overwriting a key keeps its
position).  Geodesic distance itself is an external collaborator (PostGIS),
so every spatial statement is parametrised by an abstract distance
function `dist : Point → Point → ℚ`; both the radius filter
(`location__distance_lte`) and the ordering annotation (`.distance(point)`)
use the same function, as they do in the source.

Many-to-many relations (`alt_names`, `neighbours`) are join tables touched
by no function under verification and are omitted from the row structures.
-/

namespace Cities

/-- Embeds `django.contrib.gis.geos.Point`: a planar/geodetic coordinate pair.
Coordinates are rationals so that comparisons are decidable. -/
structure Point where
  x : ℚ
  y : ℚ
deriving DecidableEq, Repr

/-- Model `Country` (models.py): top of the hierarchy.  Scalar columns of the
Django model; `null=True` columns become `Option`. -/
structure Country where
  name : String
  slug : String
  code : String
  code3 : String
  population : Int
  area : Option Int
  currency : Option String
  currency_name : Option String
  languages : Option String
  phone : String
  continent : String
  tld : String
  capital : String
deriving DecidableEq, Repr

/-- Model `Region` (models.py): child of `Country` via the `country` foreign key. -/
structure Region where
  name : String
  slug : String
  name_std : String
  code : String
  country : Country
deriving DecidableEq, Repr

/-- Model `Subregion` (models.py): child of `Region` via the `region` foreign key. -/
structure Subregion where
  name : String
  slug : String
  name_std : String
  code : String
  region : Region
deriving DecidableEq, Repr

/-- Model `City` (models.py): has a `location` point; `region` and `subregion`
are nullable foreign keys, `country` is a mandatory foreign key. -/
structure City where
  name : String
  slug : String
  name_std : String
  location : Point
  population : Int
  region : Option Region
  subregion : Option Subregion
  country : Country
  elevation : Option Int
  kind : String
  timezone : String
deriving DecidableEq, Repr

/-- Model `District` (models.py): child of `City`. -/
structure District where
  name : String
  slug : String
  name_std : String
  location : Point
  population : Int
  city : City
deriving DecidableEq, Repr

/-- Model `PostalCode` (models.py): child of `Country`, with denormalized
region/subregion/district name strings and its own location. -/
structure PostalCode where
  name : String
  slug : String
  code : String
  location : Point
  country : Country
  region_name : String
  subregion_name : String
  district_name : String
deriving DecidableEq, Repr

/-- Model `AlternativeName` (models.py): flat localized-name record. -/
structure AlternativeName where
  name : String
  language : String
  is_preferred : Bool
  is_short : Bool
  is_colloquial : Bool
deriving DecidableEq, Repr

/-- A `Place` is any row of one of the concrete models deriving from the
abstract `Place` base model. -/
inductive Place where
  | country : Country → Place
  | region : Region → Place
  | subregion : Subregion → Place
  | city : City → Place
  | district : District → Place
  | postalCode : PostalCode → Place
deriving DecidableEq, Repr

/-- The per-model `parent` properties:
`Country.parent = None`, `Region.parent = self.country`,
`Subregion.parent = self.region`, `City.parent = self.region` (nullable),
`District.parent = self.city`, `PostalCode.parent = self.country`. -/
def Place.parent : Place → Option Place
  | .country _ => none
  | .region r => some (.country r.country)
  | .subregion s => some (.region s.region)
  | .city c => c.region.map Place.region
  | .district d => some (.city d.city)
  | .postalCode p => some (.country p.country)

/-- Depth of a place's model in the fixed schema; the `parent` relation
strictly decreases it, which makes the `hierarchy` walk terminate. -/
def Place.level : Place → Nat
  | .country _ => 0
  | .region _ => 1
  | .subregion _ => 2
  | .city _ => 3
  | .district _ => 4
  | .postalCode _ => 1

/-- The property `Place.hierarchy` (models.py lines 73-78): root-first
ancestor chain, `list = self.parent.hierarchy if self.parent else []`
followed by `list.append(self)`. -/
def Place.hierarchy (p : Place) : List Place :=
  (match h : p.parent with
   | none => []
   | some q => q.hierarchy) ++ [p]
termination_by p.level
decreasing_by
  cases p with
  | country c => simp [Place.parent] at h
  | region r => simp [Place.parent] at h; subst h; simp [Place.level]
  | subregion s => simp [Place.parent] at h; subst h; simp [Place.level]
  | city c =>
      cases hr : c.region with
      | none => simp [Place.parent, hr] at h
      | some r =>
          simp [Place.parent, hr] at h
          subst h; simp [Place.level]
  | district d => simp [Place.parent] at h; subst h; simp [Place.level]
  | postalCode pc => simp [Place.parent] at h; subst h; simp [Place.level]

/-- The method `Place.get_absolute_url` (models.py lines 80-81). -/
def Place.get_absolute_url (p : Place) : String :=
  String.intercalate "/" (p.hierarchy.map fun place =>
    match place with
    | .country c => c.slug
    | .region r => r.slug
    | .subregion s => s.slug
    | .city c => c.slug
    | .district d => d.slug
    | .postalCode pc => pc.slug)

/-- The two error species `nearest_to` can surface:
`FieldError` (django.core.exceptions) raised by `self.filter(...)` when the
model has no `location` field, carrying the message built in the source, and
`TypeError` raised by `.distance(point)` on a model with no geometry field. -/
inductive QueryError where
  | fieldError : String → QueryError
  | typeError : QueryError
deriving DecidableEq, Repr

/-- A `PlaceManager` bound to a concrete model: `rows` is the table
(`self.all()`), `model` is the model's printed name (used in the error
message), and `location` is `some` accessor exactly when the model has a
`location` geometry field (City, District, PostalCode have one; Country,
Region, Subregion do not). -/
structure PlaceManager (α : Type) where
  rows : List α
  model : String
  location : Option (α → Point)

/-- Python truthiness of the `range_in_miles` argument: `None` and `0` are
falsy, every other number is truthy (`if range_in_miles:` in the source). -/
def pyTruthy : Option ℚ → Bool
  | none => false
  | some x => x ≠ 0

/-- Insert into a sorted-by-key list, keeping earlier elements first among
equal keys (a stable insertion). -/
def insertByKey (key : α → ℚ) (a : α) : List α → List α
  | [] => [a]
  | b :: l => if key a ≤ key b then a :: b :: l else b :: insertByKey key a l

/-- Stable ascending sort by a rational key: the embedding of
`.order_by('distance')` on a queryset annotated with `.distance(point)`. -/
def sortByKey (key : α → ℚ) : List α → List α
  | [] => []
  | a :: l => insertByKey key a (sortByKey key l)

/-- Method `PlaceManager.nearest_to` (models.py lines 28-59).

`place_candidates = self.all()`; then `if range_in_miles:` (Python
truthiness, so `None` and `0` skip the block) replace the candidates with
`self.filter(location__distance_lte=(point, D(mi=range_in_miles)))` — which
raises `FieldError` when the model has no `location` field; finally
`place_candidates.distance(point).order_by('distance')[0]`, where a model
without a geometry field raises `TypeError` (re-raised), and `IndexError`
on an empty result returns `None`. -/
def PlaceManager.nearest_to (m : PlaceManager α) (dist : Point → Point → ℚ)
    (point : Point) (range_in_miles : Option ℚ) : Except QueryError (Option α) :=
  let place_candidates := m.rows
  let filtered : Except QueryError (List α) :=
    if pyTruthy range_in_miles then
      match m.location with
      | some loc =>
          .ok (m.rows.filter fun r =>
            decide (dist (loc r) point ≤ range_in_miles.getD 0))
      | none =>
          .error (.fieldError
            ("Specifying a range_in_miles requires " ++ m.model ++
             " to have a location field to search by.  Implement a meaningful nearest_to func if you need this feature."))
    else .ok place_candidates
  match filtered with
  | .error e => .error e
  | .ok candidates =>
      match m.location with
      | none => .error .typeError
      | some loc =>
          match sortByKey (fun r => dist (loc r) point) candidates with
          | [] => .ok none
          | r :: _ => .ok (some r)

/-- Method `CountryManager.nearest_to` (models.py lines 91-98): delegate to the
City manager, then `nearest_city.country if nearest_city else None`
(a model instance is always truthy, `None` is falsy).  Exceptions from the
City lookup propagate unhandled. -/
def CountryManager.nearest_to (cityObjects : PlaceManager City)
    (dist : Point → Point → ℚ) (point : Point) (range_in_miles : Option ℚ) :
    Except QueryError (Option Country) :=
  match PlaceManager.nearest_to cityObjects dist point range_in_miles with
  | .error e => .error e
  | .ok nearest_city =>
      .ok (match nearest_city with
           | some c => some c.country
           | none => none)

/-- Insert-or-overwrite into a Python-style dict modelled as an association
list: assigning to an existing key keeps its position, a new key is
appended at the end (CPython insertion-order semantics). -/
def dictInsert (k : String) (v : α) : List (String × α) → List (String × α)
  | [] => [(k, v)]
  | (k', v') :: rest =>
      if k' = k then (k, v) :: rest else (k', v') :: dictInsert k v rest

/-- The dict comprehension `{f(r)[0]: f(r)[1] for r in l}`. -/
def dictComp (f : β → String × α) (l : List β) : List (String × α) :=
  l.foldl (fun d b => dictInsert (f b).1 (f b).2 d) []

/-- Keys of a dict, in insertion order. -/
def dictKeys (d : List (String × α)) : List String := d.map Prod.fst

/-- Python `d[k]` as an option: first (and only) binding of `k`. -/
def dictFind (k : String) : List (String × α) → Option α
  | [] => none
  | (k', v) :: rest => if k' = k then some v else dictFind k rest

/-- Models `queryset = queryset or self.all()`: a Django queryset is falsy exactly
when it is empty, `None` is falsy, so an absent or empty queryset falls
back to all rows. -/
def pyOrAll (queryset : Option (List α)) (allRows : List α) : List α :=
  match queryset with
  | none => allRows
  | some l => if l.isEmpty then allRows else l

/-- Method `Region.full_code` (models.py lines 152-153):
`".".join([self.parent.code, self.code])` with `parent = country`. -/
def Region.full_code (r : Region) : String :=
  String.intercalate "." [r.country.code, r.code]

/-- Method `Subregion.full_code` (models.py lines 183-184):
`".".join([self.parent.parent.code, self.parent.code, self.code])`
with `parent = region` and `parent.parent = region.country`. -/
def Subregion.full_code (s : Subregion) : String :=
  String.intercalate "." [s.region.country.code, s.region.code, s.code]

/-- Method `RegionManager.get_full_index` (models.py lines 129-139):
`queryset = queryset or self.all()`, then a `select_related('country')`
(a fetch optimization with no effect on the produced rows, embedded as the
identity), then the dict comprehension over full codes. -/
def RegionManager.get_full_index (allRows : List Region)
    (queryset : Option (List Region)) : List (String × Region) :=
  let queryset := pyOrAll queryset allRows
  let regions := queryset
  dictComp (fun r => (r.full_code, r)) regions

/-- Method `SubregionManager.get_full_index` (models.py lines 159-169): same
shape, with `select_related('region', 'region__country')`. -/
def SubregionManager.get_full_index (allRows : List Subregion)
    (queryset : Option (List Subregion)) : List (String × Subregion) :=
  let queryset := pyOrAll queryset allRows
  let subregions := queryset
  dictComp (fun r => (r.full_code, r)) subregions

/-- Discriminator for the configuration-error species: `True` exactly on
`FieldError` values (the error the source raises for a radius query on a
model without a `location` field). -/
def QueryError.isFieldError : QueryError → Bool
  | .fieldError _ => true
  | .typeError => false

/-! Concrete sample rows, used to evaluate the embedded functions on
explicit inputs. -/

def wCountry : Country :=
  { name := "Testland", slug := "testland", code := "TL", code3 := "TLD",
    population := 1000, area := some 50, currency := some "TLC",
    currency_name := some "Testland coin", languages := some "tl",
    phone := "999", continent := "EU", tld := ".tl", capital := "Testville" }

def wRegion : Region :=
  { name := "North", slug := "north", name_std := "North", code := "01",
    country := wCountry }

/-- A second `Region` row sharing `wRegion`'s country and code (nothing in
the schema forbids this: `code` is indexed but not unique), so the two rows
have equal `full_code()` values. -/
def wRegionDup : Region :=
  { name := "North Bis", slug := "north-bis", name_std := "North Bis",
    code := "01", country := wCountry }

def wRegion2 : Region :=
  { name := "South", slug := "south", name_std := "South", code := "02",
    country := wCountry }

def wSubregion : Subregion :=
  { name := "Uptown", slug := "uptown", name_std := "Uptown", code := "001",
    region := wRegion }

def wSubregion2 : Subregion :=
  { name := "Downtown", slug := "downtown", name_std := "Downtown",
    code := "002", region := wRegion }

def wPoint : Point := { x := 0, y := 0 }

def wCity : City :=
  { name := "Testville", slug := "testville", name_std := "Testville",
    location := { x := 3, y := 4 }, population := 100,
    region := some wRegion, subregion := none, country := wCountry,
    elevation := some 10, kind := "PPL", timezone := "UTC" }

/-- A city whose `subregion` foreign key is set. -/
def wCitySub : City :=
  { name := "Subville", slug := "subville", name_std := "Subville",
    location := { x := 1, y := 1 }, population := 42,
    region := some wRegion, subregion := some wSubregion, country := wCountry,
    elevation := none, kind := "PPL", timezone := "UTC" }

def wCityFar : City :=
  { name := "Farville", slug := "farville", name_std := "Farville",
    location := { x := 30, y := 40 }, population := 10,
    region := none, subregion := none, country := wCountry,
    elevation := none, kind := "PPL", timezone := "UTC" }

def wDistrict : District :=
  { name := "Old Town", slug := "old-town", name_std := "Old Town",
    location := { x := 3, y := 4 }, population := 5, city := wCity }

/-- Squared euclidean distance on rational coordinates: a concrete
stand-in for the abstract geodesic distance collaborator. -/
def wDist (p q : Point) : ℚ :=
  (p.x - q.x) * (p.x - q.x) + (p.y - q.y) * (p.y - q.y)

/-- A `City` manager over a single row; City has a `location` field. -/
def wCityMgr : PlaceManager City :=
  { rows := [wCity], model := "City", location := some City.location }

/-- A `City` manager over two rows. -/
def wCityMgr2 : PlaceManager City :=
  { rows := [wCity, wCityFar], model := "City", location := some City.location }

/-- A `Region` manager; Region has no `location` field. -/
def wRegionMgr : PlaceManager Region :=
  { rows := [wRegion], model := "Region", location := none }

/-! Shape lemmas: `hierarchy` computed for each concrete model. -/

theorem Place.hierarchy_eq (p : Place) :
    p.hierarchy =
      (match p.parent with
       | none => []
       | some q => q.hierarchy) ++ [p] := by
  rw [Place.hierarchy]
  cases p.parent <;> rfl

theorem hierarchy_country (c : Country) :
    (Place.country c).hierarchy = [.country c] := by
  rw [Place.hierarchy_eq]; rfl

theorem hierarchy_region (r : Region) :
    (Place.region r).hierarchy = [.country r.country, .region r] := by
  rw [Place.hierarchy_eq]
  simp [Place.parent, hierarchy_country]

theorem hierarchy_subregion (s : Subregion) :
    (Place.subregion s).hierarchy =
      [.country s.region.country, .region s.region, .subregion s] := by
  rw [Place.hierarchy_eq]
  simp [Place.parent, hierarchy_region]

theorem hierarchy_city_none (c : City) (hr : c.region = none) :
    (Place.city c).hierarchy = [.city c] := by
  rw [Place.hierarchy_eq]
  simp [Place.parent, hr]

theorem hierarchy_city_some (c : City) (r : Region) (hr : c.region = some r) :
    (Place.city c).hierarchy = [.country r.country, .region r, .city c] := by
  rw [Place.hierarchy_eq]
  simp [Place.parent, hr, hierarchy_region]

theorem hierarchy_district (d : District) :
    (Place.district d).hierarchy =
      (Place.city d.city).hierarchy ++ [.district d] := by
  rw [Place.hierarchy_eq]
  simp [Place.parent]

theorem hierarchy_postalCode (p : PostalCode) :
    (Place.postalCode p).hierarchy =
      [.country p.country, .postalCode p] := by
  rw [Place.hierarchy_eq]
  simp [Place.parent, hierarchy_country]

/-! Facts about the stable sort embedded for `order_by('distance')`. -/

theorem insertByKey_ne_nil (key : α → ℚ) (a : α) (s : List α) :
    insertByKey key a s ≠ [] := by
  cases s with
  | nil => simp [insertByKey]
  | cons b t =>
      simp only [insertByKey]
      split <;> simp

theorem mem_insertByKey {key : α → ℚ} {a x : α} {s : List α} :
    x ∈ insertByKey key a s ↔ x = a ∨ x ∈ s := by
  induction s with
  | nil => simp [insertByKey]
  | cons b t ih =>
      simp only [insertByKey]
      split
      · simp [List.mem_cons]
      · simp only [List.mem_cons, ih]
        tauto

theorem sortByKey_eq_nil_iff {key : α → ℚ} {l : List α} :
    sortByKey key l = [] ↔ l = [] := by
  cases l with
  | nil => simp [sortByKey]
  | cons a t =>
      simp only [sortByKey]
      constructor
      · intro h; exact absurd h (insertByKey_ne_nil key a (sortByKey key t))
      · intro h; cases h

theorem mem_sortByKey {key : α → ℚ} {x : α} {l : List α} :
    x ∈ sortByKey key l ↔ x ∈ l := by
  induction l with
  | nil => simp [sortByKey]
  | cons a t ih =>
      simp only [sortByKey, mem_insertByKey, List.mem_cons, ih]

theorem sortByKey_head_min {key : α → ℚ} {l : List α} {x : α} {rest : List α}
    (h : sortByKey key l = x :: rest) : ∀ y ∈ l, key x ≤ key y := by
  induction l generalizing x rest with
  | nil => cases h
  | cons a t ih =>
      simp only [sortByKey] at h
      cases hs : sortByKey key t with
      | nil =>
          rw [hs] at h
          simp only [insertByKey] at h
          obtain ⟨rfl, -⟩ := List.cons.injEq .. ▸ h
          have ht : t = [] := sortByKey_eq_nil_iff.mp hs
          subst ht
          intro y hy
          simp only [List.mem_singleton] at hy
          subst hy; exact le_refl _
      | cons b s =>
          rw [hs] at h
          simp only [insertByKey] at h
          by_cases hab : key a ≤ key b
          · rw [if_pos hab] at h
            obtain ⟨rfl, -⟩ := List.cons.injEq .. ▸ h
            intro y hy
            rcases List.mem_cons.mp hy with rfl | hyt
            · exact le_refl _
            · exact le_trans hab (ih hs y hyt)
          · rw [if_neg hab] at h
            obtain ⟨rfl, -⟩ := List.cons.injEq .. ▸ h
            intro y hy
            rcases List.mem_cons.mp hy with rfl | hyt
            · exact le_of_lt (lt_of_not_le hab)
            · exact ih hs y hyt

theorem sortByKey_head_mem {key : α → ℚ} {l : List α} {x : α} {rest : List α}
    (h : sortByKey key l = x :: rest) : x ∈ l := by
  have : x ∈ sortByKey key l := by rw [h]; exact List.mem_cons_self x rest
  exact mem_sortByKey.mp this

/-! Facts about the dict-comprehension model. -/

theorem dictKeys_append (d e : List (String × α)) :
    dictKeys (d ++ e) = dictKeys d ++ dictKeys e := by
  simp [dictKeys]

theorem dictInsert_of_not_mem (k : String) (v : α) (d : List (String × α))
    (h : k ∉ dictKeys d) : dictInsert k v d = d ++ [(k, v)] := by
  induction d with
  | nil => rfl
  | cons p rest ih =>
      obtain ⟨k', v'⟩ := p
      simp only [dictKeys, List.map_cons, List.mem_cons] at h
      push_neg at h
      simp only [dictInsert, if_neg (Ne.symm h.1), List.cons_append,
        List.cons.injEq, true_and]
      exact ih h.2

theorem foldl_dictInsert (f : β → String × α) (l : List β)
    (d : List (String × α))
    (h : (dictKeys d ++ l.map fun b => (f b).1).Nodup) :
    l.foldl (fun d b => dictInsert (f b).1 (f b).2 d) d = d ++ l.map f := by
  induction l generalizing d with
  | nil => simp
  | cons b t ih =>
      simp only [List.foldl_cons, List.map_cons]
      have h' : (dictKeys d ++ (f b).1 :: (t.map fun x => (f x).1)).Nodup := by
        simpa using h
      have hsplit := List.nodup_append.mp h'
      have hk : (f b).1 ∉ dictKeys d := fun hmem =>
        hsplit.2.2 hmem (List.mem_cons_self _ _)
      have hnd :
          (dictKeys (d ++ [((f b).1, (f b).2)]) ++
            t.map fun x => (f x).1).Nodup := by
        simp only [dictKeys_append, dictKeys, List.map_cons, List.map_nil,
          List.append_assoc, List.singleton_append]
        simpa [dictKeys] using h'
      rw [dictInsert_of_not_mem _ _ _ hk, ih _ hnd]
      simp

theorem dictComp_eq_map (f : β → String × α) (l : List β)
    (h : (l.map fun b => (f b).1).Nodup) : dictComp f l = l.map f := by
  have := foldl_dictInsert f l [] (by simpa [dictKeys] using h)
  simpa [dictComp] using this

theorem dictFind_map (f : β → String × α) {l : List β} {b : β}
    (hb : b ∈ l) (h : (l.map fun x => (f x).1).Nodup) :
    dictFind (f b).1 (l.map f) = some (f b).2 := by
  induction l with
  | nil => cases hb
  | cons a t ih =>
      simp only [List.map_cons, dictFind]
      rcases List.mem_cons.mp hb with rfl | hbt
      · simp
      · have hhead : (f a).1 ∉ t.map fun x => (f x).1 :=
          (List.nodup_cons.mp h).1
        have hne : ¬ (f a).1 = (f b).1 := by
          intro he
          exact hhead (he ▸ List.mem_map_of_mem (fun x => (f x).1) hbt)
        rw [if_neg hne]
        exact ih hbt (List.nodup_cons.mp h).2

/-! Characterizations of `nearest_to` by cases on the model's `location`
field and the truthiness of the radius. -/

theorem nearest_to_loc_no_radius (m : PlaceManager α) (loc : α → Point)
    (hloc : m.location = some loc) (dist : Point → Point → ℚ) (point : Point) :
    m.nearest_to dist point none =
      match sortByKey (fun r => dist (loc r) point) m.rows with
      | [] => .ok none
      | r :: _ => .ok (some r) := by
  simp [PlaceManager.nearest_to, pyTruthy, hloc]

theorem nearest_to_loc_radius (m : PlaceManager α) (loc : α → Point)
    (hloc : m.location = some loc) (dist : Point → Point → ℚ) (point : Point)
    (R : ℚ) (hR : R ≠ 0) :
    m.nearest_to dist point (some R) =
      match sortByKey (fun r => dist (loc r) point)
          (m.rows.filter fun r => decide (dist (loc r) point ≤ R)) with
      | [] => .ok none
      | r :: _ => .ok (some r) := by
  simp [PlaceManager.nearest_to, pyTruthy, hloc, hR]

theorem nearest_to_no_loc_radius (m : PlaceManager α)
    (hloc : m.location = none) (dist : Point → Point → ℚ) (point : Point)
    (R : ℚ) (hR : R ≠ 0) :
    m.nearest_to dist point (some R) =
      .error (.fieldError
        ("Specifying a range_in_miles requires " ++ m.model ++
         " to have a location field to search by.  Implement a meaningful nearest_to func if you need this feature.")) := by
  simp [PlaceManager.nearest_to, pyTruthy, hloc, hR]

theorem nearest_to_no_loc_no_radius (m : PlaceManager α)
    (hloc : m.location = none) (dist : Point → Point → ℚ) (point : Point) :
    m.nearest_to dist point none = .error .typeError := by
  simp [PlaceManager.nearest_to, pyTruthy, hloc]

/-! Claim theorems. -/

/-- C6: for every Region row, `full_code()` equals the country's code, a
dot, then the region's code; for every Subregion row, `full_code()` equals
the country's, region's and subregion's codes joined by dots, most
significant first. -/
theorem full_code_dotted :
    (∀ r : Region, r.full_code = r.country.code ++ "." ++ r.code) ∧
    (∀ s : Subregion,
      s.full_code =
        s.region.country.code ++ "." ++ s.region.code ++ "." ++ s.code) :=
  ⟨fun _ => rfl, fun _ => rfl⟩

/-- C8: a radius of zero miles is Python-falsy, so `nearest_to(point, 0)`
behaves identically to `nearest_to(point)` with no radius: no distance
restriction is applied and no configuration error is raised, on any model. -/
theorem nearest_to_zero_radius {α : Type} (m : PlaceManager α)
    (dist : Point → Point → ℚ) (point : Point) :
    m.nearest_to dist point (some 0) = m.nearest_to dist point none := by
  simp [PlaceManager.nearest_to, pyTruthy]

/-- C9: a supplied base queryset with zero rows is Python-falsy, so
`get_full_index` falls back to all rows of the entity, identical to
calling with no base queryset — not the empty mapping. -/
theorem get_full_index_empty_queryset :
    (∀ allRows : List Region,
      RegionManager.get_full_index allRows (some []) =
        RegionManager.get_full_index allRows none) ∧
    (∀ allRows : List Subregion,
      SubregionManager.get_full_index allRows (some []) =
        SubregionManager.get_full_index allRows none) :=
  ⟨fun _ => rfl, fun _ => rfl⟩

/-- C4: for every city table, query point and optional radius, the Country
manager's `nearest_to` returns exactly the City manager's result with its
`country` read off, and returns `None` exactly when the City lookup does
(errors propagate unchanged). -/
theorem country_nearest_to_delegates (cityObjects : PlaceManager City)
    (dist : Point → Point → ℚ) (point : Point) (range_in_miles : Option ℚ) :
    CountryManager.nearest_to cityObjects dist point range_in_miles =
      (PlaceManager.nearest_to cityObjects dist point range_in_miles).map
        (fun nearest_city => nearest_city.map City.country) ∧
    (CountryManager.nearest_to cityObjects dist point range_in_miles =
        .ok none ↔
      PlaceManager.nearest_to cityObjects dist point range_in_miles =
        .ok none) := by
  cases h : PlaceManager.nearest_to cityObjects dist point range_in_miles with
  | error e =>
      constructor <;> simp [CountryManager.nearest_to, h, Except.map]
  | ok nearest_city =>
      cases nearest_city with
      | none =>
          constructor <;> simp [CountryManager.nearest_to, h, Except.map]
      | some c =>
          constructor <;> simp [CountryManager.nearest_to, h, Except.map]

/-- C5: for every place, `hierarchy` is the root-to-self ancestor chain in
root-first order with no gaps or cycles: the last element is the place
itself, each element's parent is the preceding element, the first element
has no parent, and no element repeats; for every City row the first
element is the Country-level ancestor (or the city itself when it has no
region) and the last element is the city. -/
theorem hierarchy_root_to_self :
    (∀ p : Place,
      p.hierarchy.getLast? = some p ∧
      List.Chain' (fun a b => b.parent = some a) p.hierarchy ∧
      (∃ q, p.hierarchy.head? = some q ∧ q.parent = none) ∧
      p.hierarchy.Nodup) ∧
    (∀ c : City,
      (Place.city c).hierarchy.head? =
        some (match c.region with
              | none => Place.city c
              | some r => Place.country r.country) ∧
      (Place.city c).hierarchy.getLast? = some (Place.city c)) := by
  constructor
  · intro p
    cases p with
    | country c =>
        refine ⟨?_, ?_, ⟨.country c, ?_, ?_⟩, ?_⟩ <;>
          simp [hierarchy_country, Place.parent]
    | region r =>
        refine ⟨?_, ?_, ⟨.country r.country, ?_, ?_⟩, ?_⟩ <;>
          simp [hierarchy_region, Place.parent, List.chain'_cons]
    | subregion s =>
        refine ⟨?_, ?_, ⟨.country s.region.country, ?_, ?_⟩, ?_⟩ <;>
          simp [hierarchy_subregion, Place.parent, List.chain'_cons]
    | city c =>
        cases hr : c.region with
        | none =>
            refine ⟨?_, ?_, ⟨.city c, ?_, ?_⟩, ?_⟩ <;>
              simp [hierarchy_city_none c hr, Place.parent, hr]
        | some r =>
            refine ⟨?_, ?_, ⟨.country r.country, ?_, ?_⟩, ?_⟩ <;>
              simp [hierarchy_city_some c r hr, Place.parent, hr,
                List.chain'_cons]
    | district d =>
        cases hr : d.city.region with
        | none =>
            refine ⟨?_, ?_, ⟨.city d.city, ?_, ?_⟩, ?_⟩ <;>
              simp [hierarchy_district, hierarchy_city_none d.city hr,
                Place.parent, hr, List.chain'_cons]
        | some r =>
            refine ⟨?_, ?_, ⟨.country r.country, ?_, ?_⟩, ?_⟩ <;>
              simp [hierarchy_district, hierarchy_city_some d.city r hr,
                Place.parent, hr, List.chain'_cons]
    | postalCode pc =>
        refine ⟨?_, ?_, ⟨.country pc.country, ?_, ?_⟩, ?_⟩ <;>
          simp [hierarchy_postalCode, Place.parent, List.chain'_cons]
  · intro c
    cases hr : c.region with
    | none => constructor <;> simp [hierarchy_city_none c hr, hr]
    | some r => constructor <;> simp [hierarchy_city_some c r hr, hr]

/-- Witness for C5: the chain facts evaluated on concrete rows. -/
theorem hierarchy_root_to_self_witness :
    (Place.region wRegion).hierarchy.getLast? = some (Place.region wRegion) ∧
    (Place.city wCity).hierarchy.getLast? = some (Place.city wCity) :=
  ⟨(hierarchy_root_to_self.1 (Place.region wRegion)).1,
   (hierarchy_root_to_self.2 wCity).2⟩

/-- C10: a city's `hierarchy` is country-level ancestor, region, city (or
just the city when its region is absent); the city's `subregion` foreign
key never contributes an element, because `City.parent` is the region. -/
theorem city_hierarchy_no_subregion (c : City) :
    (Place.city c).hierarchy =
      (match c.region with
       | none => [Place.city c]
       | some r => [Place.country r.country, Place.region r, Place.city c]) ∧
    ∀ s : Subregion, Place.subregion s ∉ (Place.city c).hierarchy := by
  cases hr : c.region with
  | none => constructor <;> simp [hierarchy_city_none c hr, hr]
  | some r => constructor <;> simp [hierarchy_city_some c r hr, hr]

/-- Witness for C10: evaluated on a concrete city whose `subregion`
foreign key is set — the subregion still does not appear. -/
theorem city_hierarchy_no_subregion_witness :
    (Place.city wCitySub).hierarchy =
      [Place.country wCountry, Place.region wRegion, Place.city wCitySub] ∧
    Place.subregion wSubregion ∉ (Place.city wCitySub).hierarchy := by
  refine ⟨?_, (city_hierarchy_no_subregion wCitySub).2 wSubregion⟩
  have h := (city_hierarchy_no_subregion wCitySub).1
  simpa [wCitySub, wRegion] using h

/-- C1 (amended): for every model with a location field, every query
point and every supplied NONZERO radius R, `nearest_to(point, R)` returns
a row only if that row's distance to the point is at most R, and returns
`None` when no row lies within R of the point.  (A supplied radius of 0 is
Python-falsy and applies no restriction, so the bound does not hold
there.) -/
theorem nearest_to_radius_bound {α : Type} (m : PlaceManager α)
    (loc : α → Point) (hloc : m.location = some loc)
    (dist : Point → Point → ℚ) (point : Point) (R : ℚ) (hR : R ≠ 0) :
    (∀ r, m.nearest_to dist point (some R) = .ok (some r) →
      dist (loc r) point ≤ R) ∧
    ((∀ r ∈ m.rows, ¬ dist (loc r) point ≤ R) →
      m.nearest_to dist point (some R) = .ok none) := by
  have hchar := nearest_to_loc_radius m loc hloc dist point R hR
  cases hs : sortByKey (fun r => dist (loc r) point)
      (m.rows.filter fun r => decide (dist (loc r) point ≤ R)) with
  | nil =>
      rw [hs] at hchar
      constructor
      · intro r hr
        rw [hchar] at hr
        simp at hr
      · intro _
        exact hchar
  | cons x rest =>
      rw [hs] at hchar
      constructor
      · intro r hr
        rw [hchar] at hr
        have hxr : x = r := by
          injection hr with h1
          injection h1
        subst hxr
        have hx : x ∈ m.rows.filter fun r => decide (dist (loc r) point ≤ R) :=
          sortByKey_head_mem hs
        have := List.mem_filter.mp hx
        simpa using this.2
      · intro hall
        exfalso
        have hfil :
            (m.rows.filter fun r => decide (dist (loc r) point ≤ R)) = [] := by
          apply List.filter_eq_nil_iff.mpr
          intro a ha
          simpa using hall a ha
        rw [hfil] at hs
        simp [sortByKey] at hs

/-- Counterexample to C1 as stated: with a location field present and the
radius 0 supplied, the query returns a row whose distance to the point is
strictly greater than 0, because a zero radius is Python-falsy and no
distance restriction is applied. -/
theorem nearest_to_radius_bound_counterexample :
    wCityMgr.location = some City.location ∧
    wCityMgr.nearest_to wDist wPoint (some 0) = .ok (some wCity) ∧
    0 < wDist wCity.location wPoint := by
  refine ⟨rfl, rfl, ?_⟩
  norm_num [wDist, wCity, wPoint]

/-- Witness for C1 (amended), at radius 50 over a one-row city table. -/
theorem nearest_to_radius_bound_witness :
    (∀ r, wCityMgr.nearest_to wDist wPoint (some 50) = .ok (some r) →
      wDist (City.location r) wPoint ≤ 50) ∧
    ((∀ r ∈ wCityMgr.rows, ¬ wDist (City.location r) wPoint ≤ 50) →
      wCityMgr.nearest_to wDist wPoint (some 50) = .ok none) :=
  nearest_to_radius_bound wCityMgr City.location rfl wDist wPoint 50
    (by norm_num)

/-- C2: for every model with a location field and every query point,
`nearest_to(point)` with no radius returns a row of minimal distance to
the point among all rows, and returns `None` exactly when the table is
empty; an empty candidate set is a normal `None` result, not an error. -/
theorem nearest_to_no_radius_min {α : Type} (m : PlaceManager α)
    (loc : α → Point) (hloc : m.location = some loc)
    (dist : Point → Point → ℚ) (point : Point) :
    (m.nearest_to dist point none = .ok none ↔ m.rows = []) ∧
    (∀ r, m.nearest_to dist point none = .ok (some r) →
      r ∈ m.rows ∧ ∀ y ∈ m.rows, dist (loc r) point ≤ dist (loc y) point) ∧
    (m.rows ≠ [] → ∃ r, m.nearest_to dist point none = .ok (some r)) := by
  have hchar := nearest_to_loc_no_radius m loc hloc dist point
  cases hs : sortByKey (fun r => dist (loc r) point) m.rows with
  | nil =>
      rw [hs] at hchar
      have hrows : m.rows = [] := sortByKey_eq_nil_iff.mp hs
      refine ⟨?_, ?_, ?_⟩
      · simp [hchar, hrows]
      · intro r hr
        rw [hchar] at hr
        simp at hr
      · intro hne
        exact absurd hrows hne
  | cons x rest =>
      rw [hs] at hchar
      have hrows : m.rows ≠ [] := by
        intro h0
        rw [h0] at hs
        simp [sortByKey] at hs
      refine ⟨?_, ?_, ?_⟩
      · simp [hchar, hrows]
      · intro r hr
        rw [hchar] at hr
        have hxr : x = r := by
          injection hr with h1
          injection h1
        subst hxr
        exact ⟨sortByKey_head_mem hs, sortByKey_head_min hs⟩
      · intro _
        exact ⟨x, hchar⟩

/-- Witness for C2, over a two-row city table. -/
theorem nearest_to_no_radius_min_witness :
    (wCityMgr2.nearest_to wDist wPoint none = .ok none ↔
      wCityMgr2.rows = []) ∧
    (∀ r, wCityMgr2.nearest_to wDist wPoint none = .ok (some r) →
      r ∈ wCityMgr2.rows ∧ ∀ y ∈ wCityMgr2.rows,
        wDist (City.location r) wPoint ≤ wDist (City.location y) wPoint) ∧
    (wCityMgr2.rows ≠ [] →
      ∃ r, wCityMgr2.nearest_to wDist wPoint none = .ok (some r)) :=
  nearest_to_no_radius_min wCityMgr2 City.location rfl wDist wPoint

/-- C3 (amended): for every model without a location field, calling
`nearest_to` with a NONZERO radius raises the `FieldError` carrying the
configuration message — a distinguishable field error, not a silent
result.  (A supplied radius of 0 is Python-falsy, skips the radius filter
and instead hits the `TypeError` of the distance call.) -/
theorem nearest_to_no_location_field_error {α : Type} (m : PlaceManager α)
    (hloc : m.location = none) (dist : Point → Point → ℚ) (point : Point)
    (R : ℚ) (hR : R ≠ 0) :
    m.nearest_to dist point (some R) =
      .error (.fieldError
        ("Specifying a range_in_miles requires " ++ m.model ++
         " to have a location field to search by.  Implement a meaningful nearest_to func if you need this feature.")) ∧
    QueryError.isFieldError
      (.fieldError
        ("Specifying a range_in_miles requires " ++ m.model ++
         " to have a location field to search by.  Implement a meaningful nearest_to func if you need this feature.")) = true :=
  ⟨nearest_to_no_loc_radius m hloc dist point R hR, rfl⟩

/-- Counterexample to C3 as stated: with the radius 0 supplied against a
model lacking a location field, no `FieldError` is raised — the call
reaches the distance step and surfaces the (distinct) `TypeError`. -/
theorem nearest_to_no_location_field_error_counterexample :
    wRegionMgr.location = none ∧
    wRegionMgr.nearest_to wDist wPoint (some 0) = .error .typeError ∧
    QueryError.typeError.isFieldError = false :=
  ⟨rfl, rfl, rfl⟩

/-- Witness for C3 (amended), at radius 50 against the Region manager. -/
theorem nearest_to_no_location_field_error_witness :
    wRegionMgr.nearest_to wDist wPoint (some 50) =
      .error (.fieldError
        ("Specifying a range_in_miles requires " ++ wRegionMgr.model ++
         " to have a location field to search by.  Implement a meaningful nearest_to func if you need this feature.")) ∧
    QueryError.isFieldError
      (.fieldError
        ("Specifying a range_in_miles requires " ++ wRegionMgr.model ++
         " to have a location field to search by.  Implement a meaningful nearest_to func if you need this feature.")) = true :=
  nearest_to_no_location_field_error wRegionMgr rfl wDist wPoint 50
    (by norm_num)

/-- The dict comprehension over full codes, characterized when the codes
are pairwise distinct. -/
theorem get_full_index_generic {γ : Type} (fc : γ → String) (l : List γ)
    (h : (l.map fc).Nodup) :
    (dictComp (fun r => (fc r, r)) l).length = l.length ∧
    dictKeys (dictComp (fun r => (fc r, r)) l) = l.map fc ∧
    ∀ r ∈ l, dictFind (fc r) (dictComp (fun r => (fc r, r)) l) = some r := by
  have hnd : (l.map fun b => ((fun r => (fc r, r)) b).1).Nodup := by
    simpa using h
  have hmap : dictComp (fun r => (fc r, r)) l = l.map fun r => (fc r, r) :=
    dictComp_eq_map _ _ hnd
  refine ⟨?_, ?_, ?_⟩
  · rw [hmap, List.length_map]
  · rw [hmap]
    simp [dictKeys, List.map_map]
  · intro r hr
    have := dictFind_map (fun r => (fc r, r)) hr hnd
    rw [hmap]
    simpa using this

/-- C7 (amended): when the effective rows (the supplied base queryset, or
all rows when none or an empty one is supplied) have pairwise-distinct
full codes, the Region and Subregion `get_full_index` builders return a
mapping whose size equals the number of rows, whose keys are exactly the
rows' `full_code()` values, and which maps each full code to its row.
(With duplicated full codes the dict comprehension collapses them, so the
size falls short and an earlier row is overwritten.) -/
theorem get_full_index_spec
    (allRows : List Region) (queryset : Option (List Region))
    (allS : List Subregion) (querysetS : Option (List Subregion))
    (hnd : ((pyOrAll queryset allRows).map Region.full_code).Nodup)
    (hndS : ((pyOrAll querysetS allS).map Subregion.full_code).Nodup) :
    ((RegionManager.get_full_index allRows queryset).length =
        (pyOrAll queryset allRows).length ∧
      dictKeys (RegionManager.get_full_index allRows queryset) =
        (pyOrAll queryset allRows).map Region.full_code ∧
      ∀ r ∈ pyOrAll queryset allRows,
        dictFind r.full_code (RegionManager.get_full_index allRows queryset) =
          some r) ∧
    ((SubregionManager.get_full_index allS querysetS).length =
        (pyOrAll querysetS allS).length ∧
      dictKeys (SubregionManager.get_full_index allS querysetS) =
        (pyOrAll querysetS allS).map Subregion.full_code ∧
      ∀ s ∈ pyOrAll querysetS allS,
        dictFind s.full_code (SubregionManager.get_full_index allS querysetS) =
          some s) :=
  ⟨get_full_index_generic Region.full_code (pyOrAll queryset allRows) hnd,
   get_full_index_generic Subregion.full_code (pyOrAll querysetS allS) hndS⟩

/-- Counterexample to C7 as stated: two Region rows sharing one full code
produce an index of size 1, smaller than the 2 input rows, and the shared
code is mapped to the later row, not to the earlier one. -/
theorem get_full_index_spec_counterexample :
    (RegionManager.get_full_index [wRegion, wRegionDup] none).length <
      [wRegion, wRegionDup].length ∧
    dictFind wRegion.full_code
      (RegionManager.get_full_index [wRegion, wRegionDup] none) =
      some wRegionDup ∧
    wRegionDup.name = "North Bis" ∧
    wRegion.name = "North" := by
  refine ⟨?_, ?_, rfl, rfl⟩ <;> decide

/-- Witness for C7 (amended): two Region rows and two Subregion rows with
distinct codes. -/
theorem get_full_index_spec_witness :
    ((RegionManager.get_full_index [wRegion, wRegion2] none).length =
        (pyOrAll none [wRegion, wRegion2]).length ∧
      dictKeys (RegionManager.get_full_index [wRegion, wRegion2] none) =
        (pyOrAll none [wRegion, wRegion2]).map Region.full_code ∧
      ∀ r ∈ pyOrAll none [wRegion, wRegion2],
        dictFind r.full_code
          (RegionManager.get_full_index [wRegion, wRegion2] none) = some r) ∧
    ((SubregionManager.get_full_index [wSubregion, wSubregion2] none).length =
        (pyOrAll none [wSubregion, wSubregion2]).length ∧
      dictKeys
          (SubregionManager.get_full_index [wSubregion, wSubregion2] none) =
        (pyOrAll none [wSubregion, wSubregion2]).map Subregion.full_code ∧
      ∀ s ∈ pyOrAll none [wSubregion, wSubregion2],
        dictFind s.full_code
          (SubregionManager.get_full_index [wSubregion, wSubregion2] none) =
          some s) :=
  get_full_index_spec [wRegion, wRegion2] none [wSubregion, wSubregion2] none
    (by decide) (by decide)

end Cities
